import Mathlib

/-
Verification of the exception-trap dispatch layer of the islet RMM
(src/rmm/armv9a/src/exception/trap.rs) and the memory-management
boundary error translator (src/rmm/monitor/src/mm/error.rs).

The trap handlers are embedded as pure Lean functions over explicit
state records (trap frame, guest context, hardware fault registers).
Machine integers (u64) are modelled as Nat with an explicit `% 2 ^ 64`
where the source performs wrapping arithmetic (`elr += 4`).
-/

namespace Islet

/-- Modelled from the spec: the `Fault` tagged union from the syndrome
decoder module (not under src/); at minimum `Translation{level}` plus
other architecturally-defined fault subtypes, decoded from the
fault-status sub-field of the raw syndrome. -/
inductive Fault where
  | Translation (level : Nat)
  | OtherFault (fsc : Nat)
deriving DecidableEq

/-- Modelled from the spec: the semantic `Syndrome` classification
produced by the syndrome decoder (not under src/): breakpoint with an
immediate, hypervisor call, secure-monitor call, instruction/data abort
with fault detail, or unclassified carrying the raw value. -/
inductive Syndrome where
  | Brk (imm : Nat)
  | HVC
  | SMC
  | InstructionAbort (f : Fault)
  | DataAbort (f : Fault)
  | Unclassified (raw : Nat)
deriving DecidableEq

/-- Modelled from the spec: decode of the fault-status sub-field (low
six bits of the raw syndrome).  The two low bits carry the page-table
level; the upper code `0b0001` denotes a translation fault; every other
code is kept as an uninterpreted fault subtype. -/
def Fault.fromFsc (fsc : Nat) : Fault :=
  if fsc / 4 % 16 = 1 then Fault.Translation (fsc % 4) else Fault.OtherFault fsc

/-- Modelled from the spec: fault-status sub-field set by the
`Syndrome -> raw` conversion for the fields it sets (translation fault
at a given level encodes as `0b0001LL`). -/
def Fault.toFsc : Fault → Nat
  | .Translation level => 4 + level % 4
  | .OtherFault fsc => fsc % 64

/-- Modelled from the spec: `decode(raw_syndrome : u32) -> Syndrome`.
Total and side-effect-free; extracts the exception-class field from the
fixed bit range 26..31 of the raw syndrome and, for abort classes,
additionally decodes the fault-status sub-field; any unmatched bit
pattern maps to `Unclassified(raw)`.  The class values follow the
architectural ESR encoding: 0x16 hypervisor call, 0x17 secure-monitor
call, 0x20/0x21 instruction abort, 0x24/0x25 data abort, 0x3c
breakpoint. -/
def Syndrome.fromRaw (esr : Nat) : Syndrome :=
  let ec := esr / 2 ^ 26 % 64
  if ec = 0x16 then Syndrome.HVC
  else if ec = 0x17 then Syndrome.SMC
  else if ec = 0x20 ∨ ec = 0x21 then Syndrome.InstructionAbort (Fault.fromFsc (esr % 64))
  else if ec = 0x24 ∨ ec = 0x25 then Syndrome.DataAbort (Fault.fromFsc (esr % 64))
  else if ec = 0x3c then Syndrome.Brk (esr % 2 ^ 16)
  else Syndrome.Unclassified esr

/-- Modelled from the spec: the inverse `Syndrome -> raw_syndrome`
conversion used for the synthetic-fault case; it sets the
exception-class field and the fault-status sub-field and must
round-trip the fields it sets. -/
def Syndrome.toRaw : Syndrome → Nat
  | .Brk imm => 0x3c * 2 ^ 26 + imm % 2 ^ 16
  | .HVC => 0x16 * 2 ^ 26
  | .SMC => 0x17 * 2 ^ 26
  | .InstructionAbort f => 0x20 * 2 ^ 26 + f.toFsc
  | .DataAbort f => 0x24 * 2 ^ 26 + f.toFsc
  | .Unclassified raw => raw % 2 ^ 32

/-- Exception origin, from trap.rs (`enum Source`). -/
inductive Source where
  | CurrentSPEL0
  | CurrentSPELx
  | LowerAArch64
  | LowerAArch32
deriving DecidableEq

/-- Exception class, from trap.rs (`enum Kind`). -/
inductive Kind where
  | Synchronous
  | Irq
  | Fiq
  | SError
deriving DecidableEq

/-- Classification tag, from trap.rs (`struct Info`). -/
structure Info where
  source : Source
  kind : Kind
deriving DecidableEq

/-- Modelled from the spec: the trap frame (frame.rs is not under
src/): the general-purpose register snapshot and the saved return
address (program counter). -/
structure TrapFrame where
  regs : List Nat
  elr : Nat
deriving DecidableEq

/-- Modelled from the spec: the guest execution context (the VCPU
context type is not under src/): the guest logical register file
`gp_regs` and its saved program counter `elr`. -/
structure GuestContext where
  gp_regs : List Nat
  elr : Nat
deriving DecidableEq

/-- Modelled from the spec: the hardware fault-state registers
(ESR_EL2, HPFAR_EL2, FAR_EL2), process-wide mutable state read for real
faults and both read and overwritten for the fabricated remap fault;
modelled as an explicit narrow state record. -/
structure HwState where
  esr_el2 : Nat
  hpfar_el2 : Nat
  far_el2 : Nat
deriving DecidableEq

/-- Modelled from the spec: the RSI host-call command number (the rsi
module is not under src/); the spec fixes only that it is a recognized
guest command distinct from the remap command. -/
def rsi.HOST_CALL : Nat := 0xc4000199

/-- Modelled from the spec: the RSI remap-shared-page command number
(the rsi module is not under src/); distinct from the host-call
command. -/
def rsi.REMAP_PAGE : Nat := 0xc4000201

/-- Modelled from the spec: the RMI trapped-exception result code (the
rmi module is not under src/). -/
def rmi.RET_EXCEPTION_TRAP : Nat := 0xe2

/-- Modelled from the spec: the RMI interrupt result code (the rmi
module is not under src/). -/
def rmi.RET_EXCEPTION_IRQ : Nat := 0xe3

/-- From trap.rs: `const RET_TO_REC: u64 = 0` (resume guest). -/
def RET_TO_REC : Nat := 0

/-- From trap.rs: `const RET_TO_RMM: u64 = 1` (exit to monitor). -/
def RET_TO_RMM : Nat := 1

/-- From trap.rs: `advance_pc` increments the guest saved program
counter by one instruction width (u64 wrapping add). -/
def advance_pc (vcpu : GuestContext) : GuestContext :=
  { vcpu with elr := (vcpu.elr + 4) % 2 ^ 64 }

/-- Result of `handle_lower_exception`: the returned u64 decision and
the post-state of the guest context, trap frame and hardware fault
registers. -/
structure LowerResult where
  ret : Nat
  vcpu : GuestContext
  tf : TrapFrame
  hw : HwState
deriving DecidableEq

/-- From trap.rs: `handle_exception`, the own-context handler.  It
returns no value; the panic on every non-breakpoint path is modelled as
`none`, and normal return as `some` of the updated trap frame. -/
def handle_exception (info : Info) (esr : Nat) (tf : TrapFrame) : Option TrapFrame :=
  match info.kind with
  | Kind.Synchronous =>
    match Syndrome.fromRaw esr with
    | Syndrome.Brk _ => some { tf with elr := (tf.elr + 4) % 2 ^ 64 }
    | _ => none
  | _ => none

/-- From trap.rs: `handle_lower_exception`, the guest-originated
handler.  Logging calls have no modelled effect; unsafe hardware
register reads/writes act on the explicit `HwState`. -/
def handle_lower_exception (info : Info) (esr : Nat) (vcpu : GuestContext)
    (tf : TrapFrame) (hw : HwState) : LowerResult :=
  match info.kind with
  | Kind.Synchronous =>
    match Syndrome.fromRaw esr with
    | Syndrome.HVC =>
      let tf := { tf with
        regs := ((((tf.regs.set 0 rmi.RET_EXCEPTION_TRAP).set 1 esr).set 2 0).set 3 hw.far_el2) }
      ⟨RET_TO_RMM, vcpu, tf, hw⟩
    | Syndrome.SMC =>
      let cmd := vcpu.gp_regs.getD 0 0
      if cmd = rsi.HOST_CALL then
        let tf := { tf with
          regs := ((((tf.regs.set 0 rsi.HOST_CALL).set 1 (vcpu.gp_regs.getD 1 0)).set 2
            (vcpu.gp_regs.getD 2 0)).set 3 (vcpu.gp_regs.getD 3 0)) }
        ⟨RET_TO_RMM, advance_pc vcpu, tf, hw⟩
      else if cmd = rsi.REMAP_PAGE then
        let r1 := Syndrome.toRaw (Syndrome.DataAbort (Fault.Translation 3))
        let r2 := (vcpu.gp_regs.getD 1 0) / 2 ^ 8
        let r3 := vcpu.gp_regs.getD 2 0
        let tf := { tf with
          regs := ((((tf.regs.set 0 rmi.RET_EXCEPTION_TRAP).set 1 r1).set 2 r2).set 3 r3) }
        ⟨RET_TO_RMM, advance_pc vcpu, tf, { esr_el2 := r1, hpfar_el2 := r2, far_el2 := r3 }⟩
      else
        ⟨RET_TO_REC, advance_pc vcpu, tf, hw⟩
    | Syndrome.InstructionAbort _ =>
      let tf := { tf with
        regs := ((((tf.regs.set 0 rmi.RET_EXCEPTION_TRAP).set 1 esr).set 2
          hw.hpfar_el2).set 3 hw.far_el2) }
      ⟨RET_TO_RMM, vcpu, tf, hw⟩
    | Syndrome.DataAbort _ =>
      let tf := { tf with
        regs := ((((tf.regs.set 0 rmi.RET_EXCEPTION_TRAP).set 1 esr).set 2
          hw.hpfar_el2).set 3 hw.far_el2) }
      ⟨RET_TO_RMM, vcpu, tf, hw⟩
    | _ =>
      let tf := { tf with
        regs := ((((tf.regs.set 0 rmi.RET_EXCEPTION_TRAP).set 1 esr).set 2
          hw.hpfar_el2).set 3 hw.far_el2) }
      ⟨RET_TO_RMM, vcpu, tf, hw⟩
  | Kind.Irq =>
    let tf := { tf with
      regs := ((((tf.regs.set 0 rmi.RET_EXCEPTION_IRQ).set 1 esr).set 2 0).set 3 hw.far_el2) }
    ⟨RET_TO_RMM, vcpu, tf, hw⟩
  | _ => ⟨RET_TO_REC, vcpu, tf, hw⟩

namespace mm

/-- From mm/error.rs: the internal memory-management error
enumeration. -/
inductive Error where
  | MmStateError
  | MmInvalidAddr
  | MmInvalidLevel
  | MmNoEntry
  | MmAllocFail
  | MmRustError
  | MmUnimplemented
  | MmIsInUse
  | MmRefcountError
  | MmErrorOthers
deriving DecidableEq

/-- From mm/error.rs: `impl From<Error> for usize`, the explicit table
of externally-visible numeric codes. -/
def Error.toUsize : Error → Nat
  | .MmStateError => 1
  | .MmInvalidAddr => 2
  | .MmInvalidLevel => 11
  | .MmNoEntry => 12
  | .MmAllocFail => 13
  | .MmRustError => 14
  | .MmUnimplemented => 15
  | .MmIsInUse => 16
  | .MmRefcountError => 17
  | .MmErrorOthers => 99

end mm

/-- Modelled from the spec: the cross-subsystem RMI error enumeration
(rmi/error.rs is not under src/); a small externally-exposed
enumeration of which only the generic invalid-input variant is reached
from the memory subsystem. -/
inductive RmiError where
  | RmiErrorInput
  | RmiErrorRec
  | RmiErrorRealm
deriving DecidableEq

/-- From mm/error.rs: `impl From<Error> for RmiError` ignores its
argument and always yields the generic invalid-input signal. -/
def mm.Error.toRmiError : mm.Error → RmiError :=
  fun _ => RmiError.RmiErrorInput

/-- Setting the first four entries of a list of length at least four
overwrites them: the four-element front of the result is exactly the
written values. -/
theorem take_four_set (l : List Nat) (h : 4 ≤ l.length) (a b c d : Nat) :
    ((((l.set 0 a).set 1 b).set 2 c).set 3 d).take 4 = [a, b, c, d] := by
  match l with
  | _ :: _ :: _ :: _ :: _ => rfl
  | [] => simp at h
  | [_] => simp at h
  | [_, _] => simp at h
  | [_, _, _] => simp at h

/-- The guest-originated handler always returns 0 or 1. -/
theorem handle_lower_ret_cases (info : Info) (esr : Nat) (vcpu : GuestContext)
    (tf : TrapFrame) (hw : HwState) :
    (handle_lower_exception info esr vcpu tf hw).ret = 0 ∨
      (handle_lower_exception info esr vcpu tf hw).ret = 1 := by
  obtain ⟨src, kind⟩ := info
  unfold handle_lower_exception
  cases kind <;> dsimp only
  case Synchronous =>
    cases h : Syndrome.fromRaw esr <;> dsimp only <;>
      first
        | exact Or.inr rfl
        | (split_ifs <;> simp [RET_TO_RMM, RET_TO_REC])
  case Irq => exact Or.inr rfl
  case Fiq => exact Or.inl rfl
  case SError => exact Or.inl rfl

/-- On every exit-to-monitor path the handler writes all four result
registers, so their final values do not depend on the incoming trap
frame. -/
theorem handle_lower_written_of_ret_one (info : Info) (esr : Nat) (vcpu : GuestContext)
    (tf tf' : TrapFrame) (hw : HwState) (h4 : 4 ≤ tf.regs.length)
    (h4' : 4 ≤ tf'.regs.length)
    (h1 : (handle_lower_exception info esr vcpu tf hw).ret = 1) :
    (handle_lower_exception info esr vcpu tf hw).tf.regs.take 4
      = (handle_lower_exception info esr vcpu tf' hw).tf.regs.take 4 := by
  obtain ⟨src, kind⟩ := info
  unfold handle_lower_exception at h1 ⊢
  cases kind <;> dsimp only at h1 ⊢
  case Synchronous =>
    cases h : Syndrome.fromRaw esr <;> rw [h] at h1 <;> dsimp only at h1 ⊢
    case SMC =>
      split_ifs at h1 ⊢
      · exact (take_four_set _ h4 _ _ _ _).trans (take_four_set _ h4' _ _ _ _).symm
      · exact (take_four_set _ h4 _ _ _ _).trans (take_four_set _ h4' _ _ _ _).symm
      · simp [RET_TO_REC] at h1
    all_goals exact (take_four_set _ h4 _ _ _ _).trans (take_four_set _ h4' _ _ _ _).symm
  case Irq => exact (take_four_set _ h4 _ _ _ _).trans (take_four_set _ h4' _ _ _ _).symm
  case Fiq => simp [RET_TO_REC] at h1
  case SError => simp [RET_TO_REC] at h1

/-- On every resume-guest path the handler leaves the trap frame and
the hardware fault registers untouched, and either leaves the guest
context untouched or only advances its program counter. -/
theorem handle_lower_resume_frame (info : Info) (esr : Nat) (vcpu : GuestContext)
    (tf : TrapFrame) (hw : HwState)
    (h0 : (handle_lower_exception info esr vcpu tf hw).ret = 0) :
    (handle_lower_exception info esr vcpu tf hw).tf = tf ∧
    (handle_lower_exception info esr vcpu tf hw).hw = hw ∧
    ((handle_lower_exception info esr vcpu tf hw).vcpu = vcpu ∨
      (handle_lower_exception info esr vcpu tf hw).vcpu = advance_pc vcpu) := by
  obtain ⟨src, kind⟩ := info
  unfold handle_lower_exception at h0 ⊢
  cases kind <;> dsimp only at h0 ⊢
  case Synchronous =>
    cases h : Syndrome.fromRaw esr <;> rw [h] at h0 <;> dsimp only at h0 ⊢
    case SMC =>
      split_ifs at h0 ⊢
      · simp [RET_TO_RMM] at h0
      · simp [RET_TO_RMM] at h0
      · exact ⟨rfl, rfl, Or.inr rfl⟩
    all_goals simp [RET_TO_RMM] at h0
  case Irq => simp [RET_TO_RMM] at h0
  case Fiq => exact ⟨rfl, rfl, Or.inl rfl⟩
  case SError => exact ⟨rfl, rfl, Or.inl rfl⟩

/-- C5: decoding the raw value produced by encoding the synthetic
`DataAbort (Translation {level := 3})` syndrome yields the same
syndrome back: decode is a left inverse of the encoding for the fields
the remap path sets. -/
theorem c5_synthetic_syndrome_round_trip :
    Syndrome.fromRaw (Syndrome.toRaw (Syndrome.DataAbort (Fault.Translation 3)))
      = Syndrome.DataAbort (Fault.Translation 3) := by
  decide

/-- C8: the conversion of the memory-management error enumeration to
its externally-visible numeric code maps each variant to its fixed
assigned value (1, 2, 11, 12, 13, 14, 15, 16, 17, 99). -/
theorem c8_mm_error_code_table :
    mm.Error.toUsize mm.Error.MmStateError = 1 ∧
    mm.Error.toUsize mm.Error.MmInvalidAddr = 2 ∧
    mm.Error.toUsize mm.Error.MmInvalidLevel = 11 ∧
    mm.Error.toUsize mm.Error.MmNoEntry = 12 ∧
    mm.Error.toUsize mm.Error.MmAllocFail = 13 ∧
    mm.Error.toUsize mm.Error.MmRustError = 14 ∧
    mm.Error.toUsize mm.Error.MmUnimplemented = 15 ∧
    mm.Error.toUsize mm.Error.MmIsInUse = 16 ∧
    mm.Error.toUsize mm.Error.MmRefcountError = 17 ∧
    mm.Error.toUsize mm.Error.MmErrorOthers = 99 := by
  decide

/-- C9: the conversion from the memory-management error enumeration
into the cross-subsystem RMI error channel is a constant function: any
two internal errors convert to the same value, so the converted value
reveals nothing about which internal error occurred. -/
theorem c9_rmi_conversion_constant (e₁ e₂ : mm.Error) :
    mm.Error.toRmiError e₁ = mm.Error.toRmiError e₂ := by
  rfl

/-- C2 counterexample: at a concrete synchronous secure-monitor call
with the unrecognized guest command 7, the handler leaves the trap
frame exactly as it found it (the arbitrary pre-call sentinel values
111, 222, 333, 444 survive in the result registers), and two calls that
differ only in the incoming trap frame disagree on the final result
registers — so the result registers are not written on every call, as
the claim states. -/
theorem c2_counterexample :
    (handle_lower_exception ⟨Source.LowerAArch64, Kind.Synchronous⟩ (0x17 * 2 ^ 26)
        ⟨[7, 0, 0, 0], 0⟩ ⟨[111, 222, 333, 444], 0⟩ ⟨0, 0, 0⟩).tf
      = ⟨[111, 222, 333, 444], 0⟩ ∧
    (handle_lower_exception ⟨Source.LowerAArch64, Kind.Synchronous⟩ (0x17 * 2 ^ 26)
        ⟨[7, 0, 0, 0], 0⟩ ⟨[111, 222, 333, 444], 0⟩ ⟨0, 0, 0⟩).tf.regs.take 4
      ≠ (handle_lower_exception ⟨Source.LowerAArch64, Kind.Synchronous⟩ (0x17 * 2 ^ 26)
        ⟨[7, 0, 0, 0], 0⟩ ⟨[5, 6, 7, 8], 0⟩ ⟨0, 0, 0⟩).tf.regs.take 4 := by
  decide

/-- C2 (amended): for every origin/class pair and every decodable
syndrome, the guest-originated handler returns a decision in {0, 1};
whenever the decision is 1 (exit to monitor) all four result registers
regs[0]..regs[3] are freshly written (their final front-of-frame values
do not depend on the incoming trap frame). -/
theorem c2_decision_in_range_and_regs_written_on_exit (info : Info) (esr : Nat)
    (vcpu : GuestContext) (tf tf' : TrapFrame) (hw : HwState)
    (h4 : 4 ≤ tf.regs.length) (h4' : 4 ≤ tf'.regs.length) :
    ((handle_lower_exception info esr vcpu tf hw).ret = 0 ∨
      (handle_lower_exception info esr vcpu tf hw).ret = 1) ∧
    ((handle_lower_exception info esr vcpu tf hw).ret = 1 →
      (handle_lower_exception info esr vcpu tf hw).tf.regs.take 4
        = (handle_lower_exception info esr vcpu tf' hw).tf.regs.take 4) :=
  ⟨handle_lower_ret_cases info esr vcpu tf hw,
    fun h1 => handle_lower_written_of_ret_one info esr vcpu tf tf' hw h4 h4' h1⟩

/-- C2 witness: the amended claim at a concrete interrupt-class call
with two different incoming trap frames. -/
theorem c2_decision_in_range_and_regs_written_on_exit_witness :
    ((handle_lower_exception ⟨Source.LowerAArch64, Kind.Irq⟩ 3 ⟨[0], 0⟩
        ⟨[9, 9, 9, 9], 5⟩ ⟨1, 2, 3⟩).ret = 0 ∨
      (handle_lower_exception ⟨Source.LowerAArch64, Kind.Irq⟩ 3 ⟨[0], 0⟩
        ⟨[9, 9, 9, 9], 5⟩ ⟨1, 2, 3⟩).ret = 1) ∧
    ((handle_lower_exception ⟨Source.LowerAArch64, Kind.Irq⟩ 3 ⟨[0], 0⟩
        ⟨[9, 9, 9, 9], 5⟩ ⟨1, 2, 3⟩).ret = 1 →
      (handle_lower_exception ⟨Source.LowerAArch64, Kind.Irq⟩ 3 ⟨[0], 0⟩
        ⟨[9, 9, 9, 9], 5⟩ ⟨1, 2, 3⟩).tf.regs.take 4
        = (handle_lower_exception ⟨Source.LowerAArch64, Kind.Irq⟩ 3 ⟨[0], 0⟩
        ⟨[8, 8, 8, 8], 7⟩ ⟨1, 2, 3⟩).tf.regs.take 4) :=
  c2_decision_in_range_and_regs_written_on_exit ⟨Source.LowerAArch64, Kind.Irq⟩ 3 ⟨[0], 0⟩
    ⟨[9, 9, 9, 9], 5⟩ ⟨[8, 8, 8, 8], 7⟩ ⟨1, 2, 3⟩ (by decide) (by decide)

/-- C3: the own-context handler returns normally exactly in the
synchronous-breakpoint case; for every non-synchronous class and every
synchronous syndrome other than a breakpoint it halts (modelled as
`none`). -/
theorem c3_own_context_halts_unless_breakpoint (info : Info) (esr : Nat) (tf : TrapFrame) :
    handle_exception info esr tf ≠ none ↔
      info.kind = Kind.Synchronous ∧ ∃ b, Syndrome.fromRaw esr = Syndrome.Brk b := by
  obtain ⟨src, kind⟩ := info
  unfold handle_exception
  cases kind <;> dsimp only
  case Synchronous => cases h : Syndrome.fromRaw esr <;> simp
  case Irq => simp
  case Fiq => simp
  case SError => simp

/-- C4: on an own-context synchronous trap whose syndrome decodes to a
breakpoint, with saved program counter P (and P + 4 in u64 range), the
handler returns normally with the saved program counter advanced to
P + 4 and the rest of the trap frame unchanged. -/
theorem c4_breakpoint_advances_pc (info : Info) (esr b P : Nat) (tf : TrapFrame)
    (hk : info.kind = Kind.Synchronous)
    (hs : Syndrome.fromRaw esr = Syndrome.Brk b)
    (hp : tf.elr = P) (hlt : P + 4 < 2 ^ 64) :
    handle_exception info esr tf = some { tf with elr := P + 4 } := by
  unfold handle_exception
  rw [hk, hs]
  dsimp only
  rw [hp, Nat.mod_eq_of_lt hlt]

/-- C4 witness: a concrete own-context breakpoint trap at saved program
counter 0x1000 returns normally at 0x1004. -/
theorem c4_breakpoint_advances_pc_witness :
    handle_exception ⟨Source.CurrentSPELx, Kind.Synchronous⟩ (0x3c * 2 ^ 26)
        ⟨[1, 2], 0x1000⟩
      = some ⟨[1, 2], 0x1000 + 4⟩ :=
  c4_breakpoint_advances_pc ⟨Source.CurrentSPELx, Kind.Synchronous⟩ (0x3c * 2 ^ 26) 0 0x1000
    ⟨[1, 2], 0x1000⟩ rfl (by decide) rfl (by decide)

/-- C10: in every call of the guest-originated handler, if the decision
is 1 (exit to monitor) then all four result registers are written (the
final values of regs[0]..regs[3] do not depend on the incoming trap
frame), and if the decision is 0 (resume guest) then the trap frame and
the hardware fault registers are left entirely unchanged and the guest
context is at most advanced by one program-counter step. -/
theorem c10_frame_effects (info : Info) (esr : Nat) (vcpu : GuestContext)
    (tf : TrapFrame) (hw : HwState) :
    ((handle_lower_exception info esr vcpu tf hw).ret = 1 →
      ∀ tf' : TrapFrame, 4 ≤ tf.regs.length → 4 ≤ tf'.regs.length →
        (handle_lower_exception info esr vcpu tf hw).tf.regs.take 4
          = (handle_lower_exception info esr vcpu tf' hw).tf.regs.take 4) ∧
    ((handle_lower_exception info esr vcpu tf hw).ret = 0 →
      (handle_lower_exception info esr vcpu tf hw).tf = tf ∧
      (handle_lower_exception info esr vcpu tf hw).hw = hw ∧
      ((handle_lower_exception info esr vcpu tf hw).vcpu = vcpu ∨
        (handle_lower_exception info esr vcpu tf hw).vcpu = advance_pc vcpu)) :=
  ⟨fun h1 tf' h4 h4' => handle_lower_written_of_ret_one info esr vcpu tf tf' hw h4 h4' h1,
    fun h0 => handle_lower_resume_frame info esr vcpu tf hw h0⟩

/-- C10 witness: the frame conditions at a concrete unknown-command
secure-monitor call, which resumes the guest with the trap frame and
hardware registers untouched. -/
theorem c10_frame_effects_witness :
    (handle_lower_exception ⟨Source.LowerAArch64, Kind.Synchronous⟩ (0x17 * 2 ^ 26)
        ⟨[7, 0, 0, 0], 16⟩ ⟨[9, 9, 9, 9], 5⟩ ⟨1, 2, 3⟩).tf = ⟨[9, 9, 9, 9], 5⟩ ∧
    (handle_lower_exception ⟨Source.LowerAArch64, Kind.Synchronous⟩ (0x17 * 2 ^ 26)
        ⟨[7, 0, 0, 0], 16⟩ ⟨[9, 9, 9, 9], 5⟩ ⟨1, 2, 3⟩).hw = ⟨1, 2, 3⟩ ∧
    ((handle_lower_exception ⟨Source.LowerAArch64, Kind.Synchronous⟩ (0x17 * 2 ^ 26)
        ⟨[7, 0, 0, 0], 16⟩ ⟨[9, 9, 9, 9], 5⟩ ⟨1, 2, 3⟩).vcpu = ⟨[7, 0, 0, 0], 16⟩ ∨
      (handle_lower_exception ⟨Source.LowerAArch64, Kind.Synchronous⟩ (0x17 * 2 ^ 26)
        ⟨[7, 0, 0, 0], 16⟩ ⟨[9, 9, 9, 9], 5⟩ ⟨1, 2, 3⟩).vcpu
        = advance_pc ⟨[7, 0, 0, 0], 16⟩) :=
  (c10_frame_effects ⟨Source.LowerAArch64, Kind.Synchronous⟩ (0x17 * 2 ^ 26)
    ⟨[7, 0, 0, 0], 16⟩ ⟨[9, 9, 9, 9], 5⟩ ⟨1, 2, 3⟩).2 (by decide)

/-- C1: a guest-originated synchronous secure-monitor call carrying the
remap-shared-page command with arguments a1, a2 produces result
register 0 = the TRAP result code, register 1 = the raw encoding of the
synthetic DataAbort(Translation{level:3}) syndrome, register 2 =
a1 >> 8, register 3 = a2, advances the guest saved program counter by
exactly 4, decides ExitToMonitor (1), and overwrites ESR_EL2, HPFAR_EL2
and FAR_EL2 with exactly the values of result registers 1, 2, 3. -/
theorem c1_remap_page_fabrication (info : Info) (esr a1 a2 r0 r1 r2 r3 : Nat)
    (rest : List Nat) (vcpu : GuestContext) (tf : TrapFrame) (hw : HwState)
    (hk : info.kind = Kind.Synchronous)
    (hs : Syndrome.fromRaw esr = Syndrome.SMC)
    (hcmd : vcpu.gp_regs.getD 0 0 = rsi.REMAP_PAGE)
    (ha1 : vcpu.gp_regs.getD 1 0 = a1)
    (ha2 : vcpu.gp_regs.getD 2 0 = a2)
    (hregs : tf.regs = r0 :: r1 :: r2 :: r3 :: rest)
    (helr : vcpu.elr + 4 < 2 ^ 64) :
    (handle_lower_exception info esr vcpu tf hw).tf.regs
      = rmi.RET_EXCEPTION_TRAP
        :: Syndrome.toRaw (Syndrome.DataAbort (Fault.Translation 3))
        :: a1 / 2 ^ 8 :: a2 :: rest ∧
    (handle_lower_exception info esr vcpu tf hw).vcpu.elr = vcpu.elr + 4 ∧
    (handle_lower_exception info esr vcpu tf hw).ret = 1 ∧
    (handle_lower_exception info esr vcpu tf hw).hw.esr_el2
      = (handle_lower_exception info esr vcpu tf hw).tf.regs.getD 1 0 ∧
    (handle_lower_exception info esr vcpu tf hw).hw.hpfar_el2
      = (handle_lower_exception info esr vcpu tf hw).tf.regs.getD 2 0 ∧
    (handle_lower_exception info esr vcpu tf hw).hw.far_el2
      = (handle_lower_exception info esr vcpu tf hw).tf.regs.getD 3 0 := by
  obtain ⟨tfregs, tfelr⟩ := tf
  dsimp only at hregs
  subst hregs
  unfold handle_lower_exception
  rw [hk, hs]
  dsimp only
  rw [hcmd, if_neg (by decide : ¬rsi.REMAP_PAGE = rsi.HOST_CALL), if_pos rfl]
  rw [ha1, ha2]
  exact ⟨rfl, Nat.mod_eq_of_lt helr, rfl, rfl, rfl, rfl⟩

/-- C1 witness: the remap command with a1 = 0x1000 and a2 = 0x55 on a
concrete trap frame and hardware state. -/
theorem c1_remap_page_fabrication_witness :
    (handle_lower_exception ⟨Source.LowerAArch64, Kind.Synchronous⟩ (0x17 * 2 ^ 26)
        ⟨[rsi.REMAP_PAGE, 0x1000, 0x55], 0x200⟩ ⟨[0, 0, 0, 0], 9⟩ ⟨7, 8, 9⟩).tf.regs
      = rmi.RET_EXCEPTION_TRAP
        :: Syndrome.toRaw (Syndrome.DataAbort (Fault.Translation 3))
        :: 0x1000 / 2 ^ 8 :: 0x55 :: [] ∧
    (handle_lower_exception ⟨Source.LowerAArch64, Kind.Synchronous⟩ (0x17 * 2 ^ 26)
        ⟨[rsi.REMAP_PAGE, 0x1000, 0x55], 0x200⟩ ⟨[0, 0, 0, 0], 9⟩ ⟨7, 8, 9⟩).vcpu.elr
      = 0x200 + 4 ∧
    (handle_lower_exception ⟨Source.LowerAArch64, Kind.Synchronous⟩ (0x17 * 2 ^ 26)
        ⟨[rsi.REMAP_PAGE, 0x1000, 0x55], 0x200⟩ ⟨[0, 0, 0, 0], 9⟩ ⟨7, 8, 9⟩).ret = 1 ∧
    (handle_lower_exception ⟨Source.LowerAArch64, Kind.Synchronous⟩ (0x17 * 2 ^ 26)
        ⟨[rsi.REMAP_PAGE, 0x1000, 0x55], 0x200⟩ ⟨[0, 0, 0, 0], 9⟩ ⟨7, 8, 9⟩).hw.esr_el2
      = (handle_lower_exception ⟨Source.LowerAArch64, Kind.Synchronous⟩ (0x17 * 2 ^ 26)
        ⟨[rsi.REMAP_PAGE, 0x1000, 0x55], 0x200⟩ ⟨[0, 0, 0, 0], 9⟩ ⟨7, 8, 9⟩).tf.regs.getD 1 0 ∧
    (handle_lower_exception ⟨Source.LowerAArch64, Kind.Synchronous⟩ (0x17 * 2 ^ 26)
        ⟨[rsi.REMAP_PAGE, 0x1000, 0x55], 0x200⟩ ⟨[0, 0, 0, 0], 9⟩ ⟨7, 8, 9⟩).hw.hpfar_el2
      = (handle_lower_exception ⟨Source.LowerAArch64, Kind.Synchronous⟩ (0x17 * 2 ^ 26)
        ⟨[rsi.REMAP_PAGE, 0x1000, 0x55], 0x200⟩ ⟨[0, 0, 0, 0], 9⟩ ⟨7, 8, 9⟩).tf.regs.getD 2 0 ∧
    (handle_lower_exception ⟨Source.LowerAArch64, Kind.Synchronous⟩ (0x17 * 2 ^ 26)
        ⟨[rsi.REMAP_PAGE, 0x1000, 0x55], 0x200⟩ ⟨[0, 0, 0, 0], 9⟩ ⟨7, 8, 9⟩).hw.far_el2
      = (handle_lower_exception ⟨Source.LowerAArch64, Kind.Synchronous⟩ (0x17 * 2 ^ 26)
        ⟨[rsi.REMAP_PAGE, 0x1000, 0x55], 0x200⟩ ⟨[0, 0, 0, 0], 9⟩ ⟨7, 8, 9⟩).tf.regs.getD 3 0 :=
  c1_remap_page_fabrication ⟨Source.LowerAArch64, Kind.Synchronous⟩ (0x17 * 2 ^ 26)
    0x1000 0x55 0 0 0 0 [] ⟨[rsi.REMAP_PAGE, 0x1000, 0x55], 0x200⟩ ⟨[0, 0, 0, 0], 9⟩
    ⟨7, 8, 9⟩ rfl (by decide) rfl rfl rfl rfl (by decide)

/-- C6: a guest-originated synchronous secure-monitor call carrying the
host-call command with arguments a1, a2, a3 sets the result registers
to [HOST_CALL, a1, a2, a3], advances the guest saved program counter by
exactly 4, and decides ExitToMonitor (1). -/
theorem c6_host_call_forwarding (info : Info) (esr a1 a2 a3 r0 r1 r2 r3 : Nat)
    (rest : List Nat) (vcpu : GuestContext) (tf : TrapFrame) (hw : HwState)
    (hk : info.kind = Kind.Synchronous)
    (hs : Syndrome.fromRaw esr = Syndrome.SMC)
    (hcmd : vcpu.gp_regs.getD 0 0 = rsi.HOST_CALL)
    (ha1 : vcpu.gp_regs.getD 1 0 = a1)
    (ha2 : vcpu.gp_regs.getD 2 0 = a2)
    (ha3 : vcpu.gp_regs.getD 3 0 = a3)
    (hregs : tf.regs = r0 :: r1 :: r2 :: r3 :: rest)
    (helr : vcpu.elr + 4 < 2 ^ 64) :
    (handle_lower_exception info esr vcpu tf hw).tf.regs
      = rsi.HOST_CALL :: a1 :: a2 :: a3 :: rest ∧
    (handle_lower_exception info esr vcpu tf hw).vcpu.elr = vcpu.elr + 4 ∧
    (handle_lower_exception info esr vcpu tf hw).ret = 1 := by
  obtain ⟨tfregs, tfelr⟩ := tf
  dsimp only at hregs
  subst hregs
  unfold handle_lower_exception
  rw [hk, hs]
  dsimp only
  rw [hcmd, if_pos rfl]
  rw [ha1, ha2, ha3]
  exact ⟨rfl, Nat.mod_eq_of_lt helr, rfl⟩

/-- C6 witness: the host-call command with arguments (10, 11, 12) on a
concrete trap frame. -/
theorem c6_host_call_forwarding_witness :
    (handle_lower_exception ⟨Source.LowerAArch64, Kind.Synchronous⟩ (0x17 * 2 ^ 26)
        ⟨[rsi.HOST_CALL, 10, 11, 12], 0x80⟩ ⟨[1, 2, 3, 4, 5], 6⟩ ⟨7, 8, 9⟩).tf.regs
      = rsi.HOST_CALL :: 10 :: 11 :: 12 :: [5] ∧
    (handle_lower_exception ⟨Source.LowerAArch64, Kind.Synchronous⟩ (0x17 * 2 ^ 26)
        ⟨[rsi.HOST_CALL, 10, 11, 12], 0x80⟩ ⟨[1, 2, 3, 4, 5], 6⟩ ⟨7, 8, 9⟩).vcpu.elr
      = 0x80 + 4 ∧
    (handle_lower_exception ⟨Source.LowerAArch64, Kind.Synchronous⟩ (0x17 * 2 ^ 26)
        ⟨[rsi.HOST_CALL, 10, 11, 12], 0x80⟩ ⟨[1, 2, 3, 4, 5], 6⟩ ⟨7, 8, 9⟩).ret = 1 :=
  c6_host_call_forwarding ⟨Source.LowerAArch64, Kind.Synchronous⟩ (0x17 * 2 ^ 26)
    10 11 12 1 2 3 4 [5] ⟨[rsi.HOST_CALL, 10, 11, 12], 0x80⟩ ⟨[1, 2, 3, 4, 5], 6⟩
    ⟨7, 8, 9⟩ rfl (by decide) rfl rfl rfl rfl rfl (by decide)

/-- C7: a guest-originated synchronous secure-monitor call whose
command is neither the host-call nor the remap-shared-page command
advances the guest saved program counter by exactly 4, returns
ResumeGuest (0) and leaves the trap frame untouched. -/
theorem c7_unknown_smc_resumes (info : Info) (esr cmd : Nat)
    (vcpu : GuestContext) (tf : TrapFrame) (hw : HwState)
    (hk : info.kind = Kind.Synchronous)
    (hs : Syndrome.fromRaw esr = Syndrome.SMC)
    (hcmd : vcpu.gp_regs.getD 0 0 = cmd)
    (hn1 : cmd ≠ rsi.HOST_CALL)
    (hn2 : cmd ≠ rsi.REMAP_PAGE)
    (helr : vcpu.elr + 4 < 2 ^ 64) :
    (handle_lower_exception info esr vcpu tf hw).ret = 0 ∧
    (handle_lower_exception info esr vcpu tf hw).vcpu.elr = vcpu.elr + 4 ∧
    (handle_lower_exception info esr vcpu tf hw).tf = tf := by
  unfold handle_lower_exception
  rw [hk, hs]
  dsimp only
  rw [hcmd, if_neg hn1, if_neg hn2]
  exact ⟨rfl, Nat.mod_eq_of_lt helr, rfl⟩

/-- C7 witness: the unrecognized command 0x12345 resumes the guest with
the program counter advanced. -/
theorem c7_unknown_smc_resumes_witness :
    (handle_lower_exception ⟨Source.LowerAArch64, Kind.Synchronous⟩ (0x17 * 2 ^ 26)
        ⟨[0x12345], 44⟩ ⟨[9, 9, 9, 9], 5⟩ ⟨1, 2, 3⟩).ret = 0 ∧
    (handle_lower_exception ⟨Source.LowerAArch64, Kind.Synchronous⟩ (0x17 * 2 ^ 26)
        ⟨[0x12345], 44⟩ ⟨[9, 9, 9, 9], 5⟩ ⟨1, 2, 3⟩).vcpu.elr = 44 + 4 ∧
    (handle_lower_exception ⟨Source.LowerAArch64, Kind.Synchronous⟩ (0x17 * 2 ^ 26)
        ⟨[0x12345], 44⟩ ⟨[9, 9, 9, 9], 5⟩ ⟨1, 2, 3⟩).tf = ⟨[9, 9, 9, 9], 5⟩ :=
  c7_unknown_smc_resumes ⟨Source.LowerAArch64, Kind.Synchronous⟩ (0x17 * 2 ^ 26) 0x12345
    ⟨[0x12345], 44⟩ ⟨[9, 9, 9, 9], 5⟩ ⟨1, 2, 3⟩ rfl (by decide) rfl (by decide) (by decide)
    (by decide)

end Islet
